import Mathlib

/-!
Verification development for the hzgfx interval / cartmap library.

The source is Python 2 code (its test suite asserts that rounding 2.5
yields 3, which is the Python 2 half-away-from-zero rounding, and the
code guards divisions with float(...) casts that only matter under the
Python 2 division rules).  The embedding therefore models Python 2
numeric semantics:

* a Python number is either an int or a float; binary arithmetic on two
  ints stays in the ints, with division being floor division; any
  operation touching a float is carried out as exact real arithmetic,
  modelled with the rationals (every computation appearing in the claims
  is exact in binary floating point, so the rational model is faithful);
* the int(...) builtin truncates toward zero;
* round(...) rounds half away from zero;
* an operation that raises an exception in Python (division by zero) is
  modelled with Option, where none stands for the raised exception.
-/

namespace Hzgfx

/-- A Python 2 number: an int or a float.  Floats are modelled by exact
rationals; every concrete computation used in the development is exact
in binary floating point. -/
inductive PyNum where
  | int : ℤ → PyNum
  | flt : ℚ → PyNum
deriving DecidableEq, Repr

/-- Numeric value of a Python number. -/
def toQ : PyNum → ℚ
  | .int z => (z : ℚ)
  | .flt q => q

/-- True when the Python number is an int. -/
def PyNum.isInt : PyNum → Bool
  | .int _ => true
  | .flt _ => false

/-- Python addition: int + int stays int, otherwise float. -/
def pyAdd : PyNum → PyNum → PyNum
  | .int a, .int b => .int (a + b)
  | a, b => .flt (toQ a + toQ b)

/-- Python subtraction: int - int stays int, otherwise float. -/
def pySub : PyNum → PyNum → PyNum
  | .int a, .int b => .int (a - b)
  | a, b => .flt (toQ a - toQ b)

/-- Python multiplication: int * int stays int, otherwise float. -/
def pyMul : PyNum → PyNum → PyNum
  | .int a, .int b => .int (a * b)
  | a, b => .flt (toQ a * toQ b)

/-- Python 2 division, none on a zero divisor (ZeroDivisionError):
int / int is floor division, anything involving a float is true
division. -/
def pyDivOpt (a b : PyNum) : Option PyNum :=
  if toQ b = 0 then none
  else
    match a, b with
    | .int x, .int y => some (.int (Int.fdiv x y))
    | _, _ => some (.flt (toQ a / toQ b))

/-- Total wrapper for Python division, only used where the divisor is
known to be nonzero. -/
def pyDiv (a b : PyNum) : PyNum := (pyDivOpt a b).getD (.int 0)

/-- Python abs(...). -/
def pyAbs : PyNum → PyNum
  | .int z => .int |z|
  | .flt q => .flt |q|

/-- Truncation of a rational toward zero. -/
def ratTrunc (q : ℚ) : ℤ := if q < 0 then -⌊-q⌋ else ⌊q⌋

/-- The Python int(...) builtin: truncates a float toward zero. -/
def pyIntTrunc : PyNum → ℤ
  | .int z => z
  | .flt q => ratTrunc q

/-- The Python float(...) builtin. -/
def pyFloat (a : PyNum) : PyNum := .flt (toQ a)

/-- Python 2 round(...): half away from zero. -/
def roundAway (q : ℚ) : ℤ := if q < 0 then -⌊-q + 1/2⌋ else ⌊q + 1/2⌋

/-- hzgfx.interval.Interval, also hzgfx.cartmap.Interval: a numeric
interval given by start, stop and step attributes.  The two-argument
constructor Interval(start, stop) uses step 1; Interval(size) uses
start 0.  RealInterval shares the same attributes and differs only in
the methods modelled below. -/
structure Interval where
  start : PyNum
  stop : PyNum
  step : PyNum
deriving DecidableEq, Repr

/-- Computed attribute delta = stop - start (both Interval classes). -/
def deltaI (iv : Interval) : PyNum := pySub iv.stop iv.start

/-- Computed attribute neg (interval.py): the interval trends
negatively, start > stop.  Python compares numbers by value. -/
def negI (iv : Interval) : Prop := toQ iv.stop < toQ iv.start

instance (iv : Interval) : Decidable (negI iv) := by
  unfold negI; infer_instance

/-- Interval.__len__ (interval.py and cartmap.py, identical):
int(abs(delta / step)). -/
def lenD (iv : Interval) : ℤ := pyIntTrunc (pyAbs (pyDiv (deltaI iv) iv.step))

/-- RealInterval.__len__ (interval.py and cartmap.py, identical):
int(abs((delta + step) / step)). -/
def lenR (iv : Interval) : ℤ :=
  pyIntTrunc (pyAbs (pyDiv (pyAdd (deltaI iv) iv.step) iv.step))

/-- interval.py Interval.__getitem__ on an integer offset: a negative
offset is normalized by adding the length; a negatively-trending
interval is evaluated from its stop value, otherwise from its start. -/
def getitemI (iv : Interval) (off : ℤ) : PyNum :=
  let length := lenD iv
  let noff := if off < 0 then off + length else off
  if negI iv then pyAdd iv.stop (pyMul iv.step (.int noff))
  else pyAdd iv.start (pyMul iv.step (.int noff))

/-- cartmap.py Interval.__getitem__ on an integer offset: same
normalization, but always evaluated from the start value (this copy of
the class has no neg handling). -/
def getitemCart (iv : Interval) (off : ℤ) : PyNum :=
  let length := lenD iv
  let noff := if off < 0 then off + length else off
  pyAdd iv.start (pyMul iv.step (.int noff))

/-- interval.py Interval.__getitem__ on a float offset: the float is
first rescaled by the length and truncated to an int by the int(...)
builtin, then the code falls through the integer-offset path. -/
def getitemF (iv : Interval) (f : ℚ) : PyNum :=
  let length := lenD iv
  let off := ratTrunc (f * (length : ℚ))
  let noff := if off < 0 then off + length else off
  if negI iv then pyAdd iv.stop (pyMul iv.step (.int noff))
  else pyAdd iv.start (pyMul iv.step (.int noff))

/-- interval.py Interval.__contains__: a negatively-trending interval
accepts stop < value <= start, otherwise start <= value < stop is
tested. -/
def containsD (iv : Interval) (v : PyNum) : Bool :=
  if negI iv ∧ toQ v ≤ toQ iv.start ∧ toQ iv.stop < toQ v then true
  else if toQ iv.start ≤ toQ v ∧ toQ v < toQ iv.stop then true
  else false

/-- interval.py Interval.__iter__ as the list of produced values: a
negatively-trending interval walks offsets len, len-1, ..., 1 from its
stop value; otherwise offsets 0, 1, ..., len-1 from its start value. -/
def iterD (iv : Interval) : List PyNum :=
  if negI iv then
    (List.range (lenD iv).toNat).map
      (fun i : ℕ => pyAdd iv.stop (pyMul iv.step (.int (lenD iv - (i : ℤ)))))
  else
    (List.range (lenD iv).toNat).map
      (fun i : ℕ => pyAdd iv.start (pyMul iv.step (.int (i : ℤ))))

/-- cartmap.py LinearMap: holds the source and target intervals and the
cached affine coefficients, scale = Line(a, b). -/
structure LinearMapC where
  source : Interval
  target : Interval
  scaleA : PyNum
  scaleB : PyNum
deriving DecidableEq, Repr

/-- cartmap.py LinearMap.__init__: a = target.delta / float(source.delta)
and b = target.start - a * source.start.  A zero-delta source raises
ZeroDivisionError while computing a, so no object is produced (none);
the fill and clip parameters are unimplemented in the source (ZIH
placeholder) and do not affect construction. -/
def linearMapInit (source target : Interval) : Option LinearMapC :=
  match pyDivOpt (deltaI target) (pyFloat (deltaI source)) with
  | none => none
  | some a => some ⟨source, target, a, pySub target.start (pyMul a source.start)⟩

/-- cartmap.py LinearMap.translate (also __getitem__):
scale.a * point + scale.b. -/
def LinearMapC.translate (m : LinearMapC) (p : PyNum) : PyNum :=
  pyAdd (pyMul m.scaleA p) m.scaleB

/-- cartmap.py Plane: a pair of cartmap Intervals, one per axis. -/
structure Plane where
  px : Interval
  py : Interval
deriving DecidableEq, Repr

/-- cartmap.py Plane.__init__ with a (width, height) two-tuple and the
default step 1: the extremes become left = 0, right = w on the
horizontal axis and top = 0, bottom = h on the vertical axis, each zero
taking the type of the given extent. -/
def mkPlaneWH (w h : PyNum) : Plane :=
  ⟨⟨if w.isInt then .int 0 else .flt 0, w, .int 1⟩,
   ⟨if h.isInt then .int 0 else .flt 0, h, .int 1⟩⟩

/-- cartmap.py Plane.__init__ with explicit lefttop and rightbot corner
tuples and the default step 1. -/
def mkPlaneCorners (l t r b : PyNum) : Plane :=
  ⟨⟨l, r, .int 1⟩, ⟨t, b, .int 1⟩⟩

/-- cartmap.py Plane.__getattr__ for aspect: self._x.delta /
self._y.delta, with no float(...) guard; a zero vertical delta raises
ZeroDivisionError (none). -/
def aspectOpt (p : Plane) : Option PyNum := pyDivOpt (deltaI p.px) (deltaI p.py)

/-- cartmap.py Map: one affine Line(slope, intercept) per axis.  Every
coefficient produced by the source is a float thanks to the float(...)
casts, so the lines are stored as exact rationals. -/
structure Map where
  horizontal : ℚ × ℚ
  vertical : ℚ × ℚ
deriving DecidableEq, Repr

/-- cartmap.py Map.map_extremes: per-axis slope targetDelta /
float(sourceDelta); the horizontal intercept is target.left - xslope *
source.left, and the vertical intercept, as written in the source, is
target.left - yslope * source.left as well.  A zero horizontal or
vertical source delta raises ZeroDivisionError (none). -/
def mapExtremes (s t : Plane) : Option Map :=
  if toQ (deltaI s.px) = 0 then none
  else if toQ (deltaI s.py) = 0 then none
  else
    let xslope := toQ (deltaI t.px) / toQ (deltaI s.px)
    let xintercept := toQ t.px.start - xslope * toQ s.px.start
    let yslope := toQ (deltaI t.py) / toQ (deltaI s.py)
    let yintercept := toQ t.px.start - yslope * toQ s.px.start
    some ⟨(xslope, xintercept), (yslope, yintercept)⟩

/-- Modelled from the spec: the map_extremes contract of spec section
4.4, for each axis slope = targetDelta / sourceDelta and intercept =
targetStart - slope * sourceStart, where the vertical axis uses the top
extremes.  Stated only to exhibit the divergence of the source from the
spec on the vertical intercept. -/
def mapExtremesSpec (s t : Plane) : Option Map :=
  if toQ (deltaI s.px) = 0 then none
  else if toQ (deltaI s.py) = 0 then none
  else
    let xslope := toQ (deltaI t.px) / toQ (deltaI s.px)
    let xintercept := toQ t.px.start - xslope * toQ s.px.start
    let yslope := toQ (deltaI t.py) / toQ (deltaI s.py)
    let yintercept := toQ t.py.start - yslope * toQ s.py.start
    some ⟨(xslope, xintercept), (yslope, yintercept)⟩

/-- cartmap.py Map.map_clipped with the default fixed horizontal axis:
the target height is rescaled by the horizontal ratio, centered in the
vertical span of the target, and the vertical line is fitted to that
band; the horizontal line is fitted as in map_extremes.  Zero source
deltas raise ZeroDivisionError (none). -/
def mapClipped (s t : Plane) : Option Map :=
  if toQ (deltaI s.px) = 0 then none
  else if toQ (deltaI s.py) = 0 then none
  else
    let theight := toQ (deltaI s.py) * toQ (deltaI t.px) / toQ (deltaI s.px)
    let mid := toQ t.py.start + toQ (deltaI t.py) / 2
    let ytop := mid - theight / 2
    let yslope := theight / toQ (deltaI s.py)
    let yintercept := ytop - yslope * toQ s.py.start
    let xslope := toQ (deltaI t.px) / toQ (deltaI s.px)
    let xintercept := toQ t.px.start - xslope * toQ s.px.start
    some ⟨(xslope, xintercept), (yslope, yintercept)⟩

/-- cartmap.py Map.translate: applies each affine line to the point; an
axis with its nearest flag set is rounded with int(round(...)), which
under Python 2 rounds half away from zero and yields an int. -/
def Map.translate (m : Map) (p : PyNum × PyNum) (nearx neary : Bool) :
    PyNum × PyNum :=
  let tx := m.horizontal.1 * toQ p.1 + m.horizontal.2
  let ty := m.vertical.1 * toQ p.2 + m.vertical.2
  ((if nearx then .int (roundAway tx) else .flt tx),
   (if neary then .int (roundAway ty) else .flt ty))

/-- Modelled from the spec: the clip/fill-aware LinearMap of spec
sections 3 and 4.2.  The source file only declares the fill and clip
parameters and marks their implementation as a ZIH placeholder, so the
overlay state and the affine fit are taken from the words of the spec:
the map owns its source and target intervals and optional clip
(target-side) and fill (source-side) overlay intervals. -/
structure LinearMapS where
  source : Interval
  target : Interval
  clip : Option Interval
  fill : Option Interval
deriving DecidableEq, Repr

/-- Modelled from the spec: affine fit step 1 and 2, the fit basis on
the source side, sx and dx, overridden by a fill overlay when set. -/
def lmsSrcBasis (m : LinearMapS) : PyNum × PyNum :=
  match m.fill with
  | some f => (f.start, deltaI f)
  | none => (m.source.start, deltaI m.source)

/-- Modelled from the spec: affine fit step 1 and 3, the fit basis on
the target side, ty and dy, overridden by a clip overlay when set. -/
def lmsTgtBasis (m : LinearMapS) : PyNum × PyNum :=
  match m.clip with
  | some c => (c.start, deltaI c)
  | none => (m.target.start, deltaI m.target)

/-- Modelled from the spec: affine fit step 4, slope a = dy / dx. -/
def lmsA (m : LinearMapS) : ℚ := toQ (lmsTgtBasis m).2 / toQ (lmsSrcBasis m).2

/-- Modelled from the spec: affine fit step 4, intercept
b = ty - a * sx. -/
def lmsB (m : LinearMapS) : ℚ := toQ (lmsTgtBasis m).1 - lmsA m * toQ (lmsSrcBasis m).1

/-- Modelled from the spec: construction of a LinearMap requires
non-degenerate source and target intervals, failing with a domain error
(none) otherwise; no overlay is set initially. -/
def mkLinearMapS (source target : Interval) : Option LinearMapS :=
  if toQ (deltaI source) = 0 ∨ toQ (deltaI target) = 0 then none
  else some ⟨source, target, none, none⟩

/-- Modelled from the spec: set_clip installs or clears the clip
overlay; a degenerate interval fails with a domain error (none) and
leaves the state untouched. -/
def LinearMapS.setClip (m : LinearMapS) (i : Option Interval) :
    Option LinearMapS :=
  match i with
  | none => some { m with clip := none }
  | some c => if toQ (deltaI c) = 0 then none else some { m with clip := some c }

/-- Modelled from the spec: set_fill installs or clears the fill
overlay; a degenerate interval fails with a domain error (none) and
leaves the state untouched. -/
def LinearMapS.setFill (m : LinearMapS) (i : Option Interval) :
    Option LinearMapS :=
  match i with
  | none => some { m with fill := none }
  | some f => if toQ (deltaI f) = 0 then none else some { m with fill := some f }

/-- Modelled from the spec: affine fit step 5, translate applies
output = a * input + b with no bounds enforcement. -/
def LinearMapS.translate (m : LinearMapS) (p : ℚ) : ℚ := lmsA m * p + lmsB m

/-- An Interval object as a Python runtime value: the class defines no
__eq__ method, so the == operator falls back to the default object
identity comparison; addr models the object identity. -/
structure IntervalObj where
  addr : ℕ
  val : Interval
deriving DecidableEq, Repr

/-- The Python == operator on two Interval instances: with no __eq__
defined by the class, this is the default identity comparison. -/
def intervalObjEq (x y : IntervalObj) : Bool := x.addr == y.addr

/-- The discrete integer interval Interval(0, 8, 2). -/
def i082 : Interval := ⟨.int 0, .int 8, .int 2⟩

/-- The discrete integer interval Interval(0, 10). -/
def i010 : Interval := ⟨.int 0, .int 10, .int 1⟩

/-- The discrete integer interval Interval(0, 8). -/
def i08 : Interval := ⟨.int 0, .int 8, .int 1⟩

/-- The discrete integer interval Interval(2, 6), as built from the raw
tuple (2, 6) of two ints. -/
def i26 : Interval := ⟨.int 2, .int 6, .int 1⟩

/-- The degenerate interval Interval(3, 3), zero delta. -/
def i33 : Interval := ⟨.int 3, .int 3, .int 1⟩

/-- The degenerate interval Interval(2, 2), zero delta. -/
def i22 : Interval := ⟨.int 2, .int 2, .int 1⟩

/-- The descending integer interval Interval(8, 0, 2). -/
def i802 : Interval := ⟨.int 8, .int 0, .int 2⟩

/-- The descending integer interval Interval(8, 0, -2), negative step. -/
def i80n2 : Interval := ⟨.int 8, .int 0, .int (-2)⟩

/-- The integer interval Interval(0, -7, 2). -/
def i0n72 : Interval := ⟨.int 0, .int (-7), .int 2⟩

/-- The source plane of the aspect-preserving clip scenario,
Plane((100, 50)). -/
def srcPlane : Plane := mkPlaneWH (.int 100) (.int 50)

/-- The target plane of the aspect-preserving clip scenario,
Plane((25, 25)). -/
def tgtPlane : Plane := mkPlaneWH (.int 25) (.int 25)

/-- A source plane with corners (0, 0) and (10, 10). -/
def srcPlaneC3 : Plane := mkPlaneCorners (.int 0) (.int 0) (.int 10) (.int 10)

/-- A target plane with corners (5, 7) and (15, 27): its top differs
from its left, which separates the two vertical intercept formulas. -/
def tgtPlaneC3 : Plane := mkPlaneCorners (.int 5) (.int 7) (.int 15) (.int 27)

/-- A degenerate plane Plane((4, 0)): the vertical axis has top =
bottom = 0, so its delta is zero. -/
def flatPlane : Plane := mkPlaneWH (.int 4) (.int 0)

/-- The spec-modelled LinearMap over source (0, 8) and target (0, 8)
after set_clip((2, 6)) and then set_fill((2, 6)). -/
def c1Chain : Option LinearMapS :=
  ((mkLinearMapS i08 i08).bind (fun m => m.setClip (some i26))).bind
    (fun m => m.setFill (some i26))

theorem toQ_pyAdd (a b : PyNum) : toQ (pyAdd a b) = toQ a + toQ b := by
  cases a <;> cases b <;> simp [pyAdd, toQ]

theorem toQ_pySub (a b : PyNum) : toQ (pySub a b) = toQ a - toQ b := by
  cases a <;> cases b <;> simp [pySub, toQ]

theorem toQ_pyMul (a b : PyNum) : toQ (pyMul a b) = toQ a * toQ b := by
  cases a <;> cases b <;> simp [pyMul, toQ]

theorem toQ_pyFloat (a : PyNum) : toQ (pyFloat a) = toQ a := rfl

/-- When the divisor is nonzero, the guarded division succeeds and
agrees with the total wrapper. -/
theorem pyDivOpt_eq_some (a b : PyNum) (h : toQ b ≠ 0) :
    pyDivOpt a b = some (pyDiv a b) := by
  unfold pyDiv pyDivOpt
  rw [if_neg h]
  cases a <;> cases b <;> rfl

section

attribute [local semireducible] Rat.mul Rat.inv Rat.add Rat.sub

/-- C2: for source Plane (100, 50) and target Plane (25, 25),
map_clipped yields the horizontal line (0.25, 0.0) and the vertical
line (0.25, 6.25); translate((10, 25)) on the result yields
(2.5, 12.5), and with integer rounding on both axes (3, 13). -/
theorem c2_map_clipped_scenario :
    mapClipped srcPlane tgtPlane = some ⟨(1/4, 0), (1/4, 25/4)⟩ ∧
    Map.translate ⟨(1/4, 0), (1/4, 25/4)⟩ (.int 10, .int 25) false false
      = (.flt (5/2), .flt (25/2)) ∧
    Map.translate ⟨(1/4, 0), (1/4, 25/4)⟩ (.int 10, .int 25) true true
      = (.int 3, .int 13) := by
  decide

/-- C3: map_extremes is claimed to use intercept = targetStart - slope *
sourceStart with the top extremes on the vertical axis, but the source
computes the vertical intercept from the left extremes.  With source
corners (0, 0)-(10, 10) and target corners (5, 7)-(15, 27), the code
yields the vertical line (2, 5) while the spec formula yields (2, 7);
translating the source top-left corner lands at vertical coordinate 5
rather than the target top 7. -/
theorem c3_map_extremes_vertical_intercept_bug :
    mapExtremes srcPlaneC3 tgtPlaneC3 = some ⟨(1, 5), (2, 5)⟩ ∧
    mapExtremesSpec srcPlaneC3 tgtPlaneC3 = some ⟨(1, 5), (2, 7)⟩ ∧
    Map.translate ⟨(1, 5), (2, 5)⟩ (.int 0, .int 0) false false
      = (.flt 5, .flt 5) := by
  decide

/-- C8 counterexample: two distinct Interval instances with equal
start, stop and step attributes do not compare as equal, because the
class defines no structural equality and the == operator falls back to
object identity. -/
theorem c8_structural_eq_counterexample :
    (IntervalObj.mk 0 i082).val.start = (IntervalObj.mk 1 i082).val.start ∧
    (IntervalObj.mk 0 i082).val.stop = (IntervalObj.mk 1 i082).val.stop ∧
    (IntervalObj.mk 0 i082).val.step = (IntervalObj.mk 1 i082).val.step ∧
    intervalObjEq (IntervalObj.mk 0 i082) (IntervalObj.mk 1 i082) = false := by
  decide

/-- C8 amended: equality between Interval instances is reference
identity, not structural: two instances compare equal exactly when they
are the same object, whatever their attributes hold. -/
theorem c8_identity_eq_amended (x y : IntervalObj) :
    intervalObjEq x y = true ↔ x.addr = y.addr := by
  simp [intervalObjEq]

/-- C9: a float offset is rescaled by the length and truncated toward
zero by the int(...) builtin, with no restriction to [0.0, 1.0): on the
length-10 interval Interval(0, 10), the offset 1.5 addresses position
15 and extrapolates to value 15, while the offset -0.5 truncates to
position -5, which is normalized by adding the length, so it agrees
with offset 0.5 at value 5. -/
theorem c9_float_offset_semantics :
    (∀ (iv : Interval) (f : ℚ),
      getitemF iv f = getitemI iv (ratTrunc (f * (lenD iv : ℚ)))) ∧
    ratTrunc ((3/2 : ℚ) * (lenD i010 : ℚ)) = 15 ∧
    getitemF i010 (3/2) = PyNum.int 15 ∧
    ratTrunc ((-(1/2) : ℚ) * (lenD i010 : ℚ)) = -5 ∧
    getitemF i010 (-(1/2)) = getitemF i010 (1/2) ∧
    getitemF i010 (1/2) = PyNum.int 5 :=
  ⟨fun _ _ => rfl, by decide, by decide, by decide, by decide, by decide⟩

/-- C4 counterexample: on Interval(0, 8, 2) the offset -1 is normalized
by adding the length, giving value 6 in both copies of the class, not
the extrapolated value -2 stated by the claim. -/
theorem c4_extrapolation_counterexample :
    getitemI i082 (-1) = PyNum.int 6 ∧
    getitemCart i082 (-1) = PyNum.int 6 ∧
    ¬ getitemI i082 (-1) = PyNum.int (-2) := by
  decide

/-- C4 amended: for a non-descending interval, valueAt(offset) equals
start + step * offset for every non-negative integer offset, with
unbounded extrapolation above the length; a negative offset first has
the length added to it, so valueAt(-1) addresses position length - 1
rather than extrapolating below start. -/
theorem c4_extrapolation_amended (iv : Interval) (off : ℤ)
    (h : toQ iv.start ≤ toQ iv.stop) :
    toQ (getitemI iv off)
      = toQ iv.start
        + toQ iv.step * (((if off < 0 then off + lenD iv else off) : ℤ) : ℚ) := by
  have hneg : ¬ negI iv := not_lt.mpr h
  unfold getitemI
  rw [if_neg hneg, toQ_pyAdd, toQ_pyMul]
  rfl

/-- C4 witness: Interval(0, 8, 2) at offset 5 evaluates to
0 + 2 * 5 = 10, the extrapolation the claim gives for valueAt(5). -/
theorem c4_extrapolation_witness :
    toQ i082.start ≤ toQ i082.stop ∧
    toQ (getitemI i082 5)
      = toQ i082.start
        + toQ i082.step * (((if (5 : ℤ) < 0 then 5 + lenD i082 else 5) : ℤ) : ℚ) :=
  ⟨by decide, c4_extrapolation_amended i082 5 (by decide)⟩

/-- C5 counterexample: constructing a LinearMap with the zero-delta
target Interval(3, 3) succeeds (slope 0), so a degenerate target does
not make construction fail. -/
theorem c5_degenerate_counterexample :
    toQ (deltaI i33) = 0 ∧ (linearMapInit i08 i33).isSome = true := by
  constructor
  · decide
  · rfl

/-- C5 amended: constructing a LinearMap with a zero-delta source
raises ZeroDivisionError while the slope is being computed, so no
coefficient exists and no object is returned; with any nonzero-delta
source, construction succeeds for every target, a zero-delta target
included, with slope targetDelta / sourceDelta and intercept
targetStart - slope * sourceStart. -/
theorem c5_degenerate_amended (s t : Interval) :
    (toQ (deltaI s) = 0 → linearMapInit s t = none) ∧
    (toQ (deltaI s) ≠ 0 →
      ∃ m, linearMapInit s t = some m ∧ m.source = s ∧ m.target = t ∧
        toQ m.scaleA = toQ (deltaI t) / toQ (deltaI s) ∧
        toQ m.scaleB
          = toQ t.start - toQ (deltaI t) / toQ (deltaI s) * toQ s.start) := by
  constructor
  · intro h
    have hdiv : pyDivOpt (deltaI t) (pyFloat (deltaI s)) = none := by
      unfold pyDivOpt
      rw [if_pos (by rw [toQ_pyFloat]; exact h)]
    unfold linearMapInit
    rw [hdiv]
  · intro h
    have hdiv : pyDivOpt (deltaI t) (pyFloat (deltaI s))
        = some (.flt (toQ (deltaI t) / toQ (deltaI s))) := by
      unfold pyDivOpt pyFloat
      rw [if_neg (by rw [toQ] ; exact h)]
      cases deltaI t <;> rfl
    have hinit : linearMapInit s t
        = some ⟨s, t, .flt (toQ (deltaI t) / toQ (deltaI s)),
            pySub t.start
              (pyMul (.flt (toQ (deltaI t) / toQ (deltaI s))) s.start)⟩ := by
      unfold linearMapInit
      rw [hdiv]
    refine ⟨_, hinit, rfl, rfl, rfl, ?_⟩
    rw [toQ_pySub, toQ_pyMul]
    rfl

/-- C5 witness: the zero-delta source Interval(2, 2) makes construction
fail with no object produced. -/
theorem c5_degenerate_witness :
    toQ (deltaI i22) = 0 ∧ linearMapInit i22 i08 = none :=
  ⟨by decide, (c5_degenerate_amended i22 i08).1 (by decide)⟩

/-- C6 counterexample: the discrete integer Interval(0, -7, 2) has
length 4 while floor(abs(delta / step)) = 3 under exact division, and
its continuous reading has length 3 while
floor(abs((delta + step) / step)) = 2: the Python 2 integer floor
division runs before the absolute value is taken. -/
theorem c6_length_counterexample :
    lenD i0n72 = 4 ∧ ⌊|toQ (deltaI i0n72) / toQ i0n72.step|⌋ = 3 ∧
    ¬ lenD i0n72 = ⌊|toQ (deltaI i0n72) / toQ i0n72.step|⌋ ∧
    lenR i0n72 = 3 ∧
    ⌊|(toQ (deltaI i0n72) + toQ i0n72.step) / toQ i0n72.step|⌋ = 2 := by
  refine ⟨by decide, by decide, by decide, by decide, by decide⟩

/-- C6 amended: for an interval whose attributes are all Python ints,
the discrete length is abs(fdiv(delta, step)) and the continuous length
is abs(fdiv(delta + step, step)), floor division running before the
absolute value; for float attributes the claimed laws
floor(abs(delta / step)) and floor(abs((delta + step) / step)) hold as
stated. -/
theorem c6_length_amended :
    (∀ a b s : ℤ, s ≠ 0 →
      lenD ⟨.int a, .int b, .int s⟩ = |Int.fdiv (b - a) s|) ∧
    (∀ a b s : ℚ, s ≠ 0 →
      lenD ⟨.flt a, .flt b, .flt s⟩ = ⌊|(b - a) / s|⌋) ∧
    (∀ a b s : ℤ, s ≠ 0 →
      lenR ⟨.int a, .int b, .int s⟩ = |Int.fdiv (b - a + s) s|) ∧
    (∀ a b s : ℚ, s ≠ 0 →
      lenR ⟨.flt a, .flt b, .flt s⟩ = ⌊|(b - a + s) / s|⌋) := by
  have hint : ∀ (z : ℤ) (s : ℤ), s ≠ 0 →
      pyIntTrunc (pyAbs (pyDiv (.int z) (.int s))) = |Int.fdiv z s| := by
    intro z s hs
    have : toQ (.int s) ≠ 0 := by
      rw [toQ]
      exact_mod_cast hs
    unfold pyDiv pyDivOpt
    rw [if_neg this]
    rfl
  have hflt : ∀ (q : ℚ) (s : ℚ), s ≠ 0 →
      pyIntTrunc (pyAbs (pyDiv (.flt q) (.flt s))) = ⌊|q / s|⌋ := by
    intro q s hs
    have : toQ (PyNum.flt s) ≠ 0 := hs
    unfold pyDiv pyDivOpt
    rw [if_neg this]
    show ratTrunc |toQ (.flt q) / toQ (.flt s)| = _
    unfold ratTrunc
    rw [if_neg (not_lt.mpr (abs_nonneg _))]
    rfl
  refine ⟨fun a b s hs => ?_, fun a b s hs => ?_,
          fun a b s hs => ?_, fun a b s hs => ?_⟩
  · exact hint (b - a) s hs
  · exact hflt (b - a) s hs
  · exact hint (b - a + s) s hs
  · exact hflt (b - a + s) s hs

/-- C6 witness: the all-integer discrete Interval(0, -7, 2) has length
abs(fdiv(-7, 2)) = 4. -/
theorem c6_length_witness :
    ((2 : ℤ) ≠ 0) ∧
    lenD ⟨.int 0, .int (-7), .int 2⟩ = |Int.fdiv (-7 - 0) 2| :=
  ⟨by decide, c6_length_amended.1 0 (-7) 2 (by decide)⟩

/-- C7 counterexample: Interval(8, 0, -2) is constructed with start >
stop, yet iteration yields -8, -6, -4, -2, a strictly ascending run
whose values even fall outside the mirrored membership range. -/
theorem c7_negative_direction_counterexample :
    toQ i80n2.stop < toQ i80n2.start ∧
    iterD i80n2 = [.int (-8), .int (-6), .int (-4), .int (-2)] ∧
    ¬ List.Pairwise (fun a b => toQ b < toQ a) (iterD i80n2) ∧
    List.Pairwise (fun a b => toQ a < toQ b) (iterD i80n2) ∧
    containsD i80n2 (.int (-8)) = false := by
  refine ⟨by decide, by decide, by decide, by decide, by decide⟩

/-- Helper for the iteration order: a map over List.range is strictly
decreasing in the modelled Python value order whenever the mapped
function is. -/
theorem pairwise_range_map_toQ_lt (n : ℕ) (f : ℕ → PyNum)
    (hf : ∀ a b : ℕ, a < b → toQ (f b) < toQ (f a)) :
    List.Pairwise (fun x y => toQ y < toQ x) ((List.range n).map f) := by
  rw [List.pairwise_map]
  exact (List.pairwise_lt_range n).imp (fun hab => hf _ _ hab)

/-- C7 amended: an Interval constructed with start > stop and a
positive step iterates in strictly decreasing order and its membership
test accepts exactly the mirrored range (stop, start]; with a negative
step the iteration is ascending, as the counterexample shows. -/
theorem c7_negative_direction_amended (iv : Interval) (v : PyNum)
    (hneg : toQ iv.stop < toQ iv.start) (hstep : 0 < toQ iv.step) :
    List.Pairwise (fun a b => toQ b < toQ a) (iterD iv) ∧
    (containsD iv v = true ↔ toQ iv.stop < toQ v ∧ toQ v ≤ toQ iv.start) := by
  constructor
  · unfold iterD
    rw [if_pos (show negI iv from hneg)]
    refine pairwise_range_map_toQ_lt _ _ ?_
    intro a b hab
    rw [toQ_pyAdd, toQ_pyAdd, toQ_pyMul, toQ_pyMul]
    have hcast : (toQ (.int (lenD iv - b)) : ℚ) < toQ (.int (lenD iv - a)) := by
      rw [toQ, toQ]
      have : (lenD iv - b : ℤ) < lenD iv - a := by omega
      exact_mod_cast this
    have := mul_lt_mul_of_pos_left hcast hstep
    linarith
  · unfold containsD
    split_ifs with h1 h2
    · simp only [true_iff]
      exact ⟨h1.2.2, h1.2.1⟩
    · exfalso
      exact absurd hneg (not_lt.mpr (le_trans h2.1 (le_of_lt h2.2)))
    · simp only [false_iff]
      intro hv
      exact h1 ⟨hneg, hv.2, hv.1⟩

/-- C7 witness: Interval(8, 0, 2) iterates 8, 6, 4, 2 in strictly
decreasing order and accepts 5 as a member of the mirrored range
(0, 8]. -/
theorem c7_negative_direction_witness :
    (toQ i802.stop < toQ i802.start ∧ (0 : ℚ) < toQ i802.step) ∧
    (List.Pairwise (fun a b => toQ b < toQ a) (iterD i802) ∧
     (containsD i802 (.int 5) = true ↔
       toQ i802.stop < toQ (PyNum.int 5) ∧
       toQ (PyNum.int 5) ≤ toQ i802.start)) :=
  ⟨⟨by decide, by decide⟩,
   c7_negative_direction_amended i802 (.int 5) (by decide) (by decide)⟩

/-- C10: reading the aspect attribute of a Plane whose vertical axis
has top equal to bottom raises ZeroDivisionError (none), and for every
Plane with a nonzero vertical delta it returns the Python quotient of
the horizontal delta by the vertical delta. -/
theorem c10_aspect_safety (p : Plane) :
    (toQ p.py.stop = toQ p.py.start → aspectOpt p = none) ∧
    (toQ p.py.stop ≠ toQ p.py.start →
      aspectOpt p = some (pyDiv (deltaI p.px) (deltaI p.py))) := by
  have hdy : toQ (deltaI p.py) = toQ p.py.stop - toQ p.py.start := toQ_pySub _ _
  constructor
  · intro h
    unfold aspectOpt pyDivOpt
    rw [if_pos (by rw [hdy, h, sub_self])]
  · intro h
    exact pyDivOpt_eq_some _ _ (by rw [hdy]; intro hc; exact h (by linarith))

/-- C10 witness: Plane((4, 0)) has top = bottom = 0 and its aspect read
fails, while Plane((100, 50)) yields the Python 2 integer quotient
100 / 50 = 2. -/
theorem c10_aspect_witness :
    (toQ flatPlane.py.stop = toQ flatPlane.py.start ∧
     aspectOpt flatPlane = none) ∧
    (toQ srcPlane.py.stop ≠ toQ srcPlane.py.start ∧
     aspectOpt srcPlane = some (pyDiv (deltaI srcPlane.px) (deltaI srcPlane.py))) :=
  ⟨⟨by decide, (c10_aspect_safety flatPlane).1 (by decide)⟩,
   ⟨by decide, (c10_aspect_safety srcPlane).2 (by decide)⟩⟩

/-- C1: on the spec-modelled LinearMap with source (0, 8) and target
(0, 8), applying set_clip((2, 6)) and then set_fill((2, 6)) restores
the identity mapping: translate(p) = p at every integer position p in
0..7, the symmetric equal-width overlays cancelling exactly. -/
theorem c1_clip_fill_symmetry (p : ℤ) (h0 : 0 ≤ p) (h8 : p < 8) :
    c1Chain.map (fun m => m.translate ((p : ℤ) : ℚ)) = some ((p : ℤ) : ℚ) := by
  have hc : c1Chain = some ⟨i08, i08, some i26, some i26⟩ := by decide
  rw [hc]
  show some (LinearMapS.translate _ _) = _
  congr 1
  simp only [LinearMapS.translate, lmsA, lmsB, lmsTgtBasis, lmsSrcBasis]
  norm_num [i26, deltaI, pySub, toQ]

/-- C1 witness: at position 3 the clip-then-fill chain translates 3 to
3. -/
theorem c1_clip_fill_symmetry_witness :
    ((0 : ℤ) ≤ 3 ∧ (3 : ℤ) < 8) ∧
    c1Chain.map (fun m => m.translate ((3 : ℤ) : ℚ)) = some ((3 : ℤ) : ℚ) :=
  ⟨⟨by decide, by decide⟩, c1_clip_fill_symmetry 3 (by decide) (by decide)⟩

end

end Hzgfx
